import Mathlib

/-!
Shallow embedding of `src/youtube_transcriptor.py` (a YouTube → Whisper
transcription batch script) and proofs of its specified properties.

Python strings are modelled as Lean `String` (a list of codepoints, matching
Python's `len`/slicing semantics), Python floats as `ℚ` with exact real
semantics for `//` and `%`, the filesystem as a `List String` of existing
paths, and the audit CSV as `Option (List LogLine)` (`none` = file absent).
External collaborators (yt-dlp, ffmpeg, whisper, python-docx) are modelled as
an environment `ItemEnv` that dictates each stage's outcome per item.
-/

/-- Python `f"{i:02d}"`: decimal rendering left-padded with `0` to width 2. -/
def pad02d (i : ℤ) : String :=
  if 0 ≤ i ∧ i < 10 then "0" ++ toString i else toString i

/-- Model of `format_timestamp(seconds)`: `hours = int(seconds // 3600)`,
`minutes = int((seconds % 3600) // 60)`, `secs = int(seconds % 60)`;
returns `HH:MM:SS` when `hours > 0`, else `MM:SS`.  Python's float `//` is
`⌊a / b⌋` and `a % b = a - b * ⌊a / b⌋`; `int(·)` on those non-negative
results is the identity on the floor. -/
def format_timestamp (seconds : ℚ) : String :=
  let hours : ℤ := ⌊seconds / 3600⌋
  let minutes : ℤ := ⌊(seconds - 3600 * ((⌊seconds / 3600⌋ : ℤ) : ℚ)) / 60⌋
  let secs : ℤ := ⌊seconds - 60 * ((⌊seconds / 60⌋ : ℤ) : ℚ)⌋
  if 0 < hours then
    pad02d hours ++ ":" ++ pad02d minutes ++ ":" ++ pad02d secs
  else
    pad02d minutes ++ ":" ++ pad02d secs

/-- The reserved characters of the regex `[<>:"/\\|?*]` used by
`re.sub(r'[<>:"/\\|?*]', '_', title)`. -/
def reservedChars : List Char := ['<', '>', ':', '\"', '/', '\\', '|', '?', '*']

/-- Replacement applied to a single character by the regex substitution. -/
def sanitizeChar (c : Char) : Char :=
  if c ∈ reservedChars then '_' else c

/-- Model of `re.sub(r'[<>:"/\\|?*]', '_', s)`: every reserved character becomes `_`. -/
def sanitize (s : String) : String :=
  String.mk (s.data.map sanitizeChar)

/-- Whitespace set of Python `str.strip()` (ASCII part). -/
def pyIsSpace (c : Char) : Bool :=
  c == ' ' || c == '\t' || c == '\n' || c == '\r' || c == '\x0b' || c == '\x0c'

/-- Python `s.strip()`: drop leading and trailing whitespace. -/
def pystrip (s : String) : String :=
  String.mk (((s.data.dropWhile pyIsSpace).reverse.dropWhile pyIsSpace).reverse)

/-- The date-normalisation step of `registro`'s success branch:
`if upload_date != 'N/A' and len(upload_date) == 8:` slice into
`YYYY-MM-DD` (`[0:4]`, `[4:6]`, `[6:8]`); otherwise keep the value. -/
def normalize_upload_date (upload_date : String) : String :=
  if upload_date ≠ "N/A" ∧ upload_date.length = 8 then
    String.mk (upload_date.data.take 4) ++ "-" ++
      String.mk ((upload_date.data.drop 4).take 2) ++ "-" ++
      String.mk ((upload_date.data.drop 6).take 2)
  else
    upload_date

/-- The duration-formatting step of `registro`'s success branch
(always three zero-padded fields). -/
def format_duration (d : Nat) : String :=
  pad02d (Int.ofNat (d / 3600)) ++ ":" ++ pad02d (Int.ofNat (d % 3600 / 60))
    ++ ":" ++ pad02d (Int.ofNat (d % 60))

/-- Metadata returned by `yt_dlp`'s `extract_info` for one video.  `title` and
`requested_downloads[0]['filepath']` are accessed unconditionally by the
script; the audit fields are read with `info.get(..., 'N/A')`, so they are
optional here. -/
structure Info where
  title : String
  upload_date : Option String
  duration : Option Nat
  view_count : Option Nat
  uploader : Option String
  filepath : String
deriving DecidableEq

/-- One data row of `transcriptions_log.csv`, as built by `registro`. -/
structure Row where
  title : String
  upload_date : String
  duration : String
  view_count : String
  channel : String
  URL : String
  status : String
deriving DecidableEq

/-- One line of the audit CSV: the header line or a data row. -/
inductive LogLine where
  | header
  | data (r : Row)
deriving DecidableEq

/-- Whether a log line is a data row. -/
def LogLine.isData : LogLine → Bool
  | LogLine.data _ => true
  | LogLine.header => false

/-- Whether a log line is the header. -/
def LogLine.isHeader : LogLine → Bool
  | LogLine.header => true
  | LogLine.data _ => false

/-- The success-branch row of `registro` (date normalised, duration formatted,
missing fields as `N/A`, `status = Success`). -/
def successRow (info : Info) (url : String) : Row :=
  { title := info.title
    upload_date := normalize_upload_date (info.upload_date.getD "N/A")
    duration :=
      match info.duration with
      | some d => format_duration d
      | none => "N/A"
    view_count :=
      match info.view_count with
      | some v => toString v
      | none => "N/A"
    channel := info.uploader.getD "N/A"
    URL := url
    status := "Success" }

/-- The error-branch row of `registro` (`isinstance(info, Exception)`). -/
def errorRow (msg : String) (url : String) : Row :=
  { title := "N/A"
    upload_date := "N/A"
    duration := "N/A"
    view_count := "N/A"
    channel := "N/A"
    URL := url
    status := "Error: " ++ msg }

/-- The file write of `registro`: `write_header = not os.path.exists(csv)`
then `df.to_csv(csv, mode="a", header=write_header)`.  An absent file
(`none`) is created holding the header and the row; an existing file gets the
row appended. -/
def registro_write (log : Option (List LogLine)) (r : Row) : Option (List LogLine) :=
  match log with
  | none => some [LogLine.header, LogLine.data r]
  | some ls => some (ls ++ [LogLine.data r])

/-- Model of `registro(info, url, csv)`: build the error or success row and append it. -/
def registro (info : Except String Info) (url : String)
    (log : Option (List LogLine)) : Option (List LogLine) :=
  match info with
  | Except.error msg => registro_write log (errorRow msg url)
  | Except.ok i => registro_write log (successRow i url)

/-- A sequence of `registro` file writes (several items, one run or many). -/
def recordAll (log : Option (List LogLine)) (rs : List Row) : Option (List LogLine) :=
  rs.foldl registro_write log

/-- Number of data rows in an audit log (`none` = absent file). -/
def logDataCount (log : Option (List LogLine)) : Nat :=
  (log.getD []).countP LogLine.isData

/-- One Whisper transcript segment: `{'start': ..., 'end': ..., 'text': ...}`. -/
structure Segment where
  start : ℚ
  «end» : ℚ
  text : String
deriving DecidableEq

/-- A Whisper result dict: `result['text']` plus `result['segments']`;
`segments = none` models a dict without the `'segments'` key. -/
structure TranscribeResult where
  text : String
  segments : Option (List Segment)
deriving DecidableEq

/-- The fixed heading `word` adds first: `doc.add_heading('Transcripción de Audio', 0)`. -/
def wordHeading : String := "Transcripción de Audio"

/-- The body paragraphs `word` writes: with a `'segments'` key, one paragraph
per segment, `[start → end] ` (both endpoints via `format_timestamp`)
followed by `segment['text'].strip()`; without the key, a single paragraph
holding `result['text']`. -/
def wordParagraphs (result : TranscribeResult) : List String :=
  match result.segments with
  | some segs =>
      segs.map (fun segment =>
        "[" ++ format_timestamp segment.start ++ " → " ++
          format_timestamp segment.«end» ++ "] " ++ pystrip segment.text)
  | none => [result.text]

/-- Removal step of `clean` for one entry of `[input_file, output_file]`:
`if archivo and os.path.exists(archivo): os.remove(archivo)`. -/
def removeIfExists (files : List String) (archivo : Option String) : List String :=
  match archivo with
  | none => files
  | some f => if f ∈ files then files.erase f else files

/-- Model of `clean(input_file, output_file)` acting on the set of existing
files: best-effort removal of both optional paths; never raises. -/
def clean (files : List String) (input_file output_file : Option String) : List String :=
  removeIfExists (removeIfExists files input_file) output_file

/-- Creation of a file on disk (`yt-dlp` download, `ffmpeg` output,
`doc.save`); creating an already-existing path overwrites it. -/
def createFile (files : List String) (f : String) : List String :=
  if f ∈ files then files else files ++ [f]

/-- Outcomes the external collaborators produce for one item: each stage
either returns (`Except.ok`) or raises (`Except.error msg`).  `download`
carries the `yt_dlp` metadata; the payloads of `convert` and `save` are unit
because the script only uses their success. -/
structure ItemEnv where
  download : Except String Info
  convert : Except String Unit
  transcribe : Except String TranscribeResult
  save : Except String Unit

/-- Observable state of one run of `main`: the set of files on disk, the
audit log (`none` = `transcriptions_log.csv` absent), and the
`exitosos` / `fallidos` counters. -/
structure BatchState where
  files : List String
  log : Option (List LogLine)
  exitosos : Nat
  fallidos : Nat
deriving DecidableEq

/-- One iteration of the `for idx, url in enumerate(videos, 1)` loop of
`main`.  `input_file`/`output_file` start as `None` and are assigned only by
a *returning* `convert_to_wav` call; a download failure raises before any
file exists; a conversion failure raises after the raw download was written
but before the assignment, so the `finally` block runs `clean(None, None)`;
later failures (transcribe, save) and the success path run
`clean(input_file, output_file)`.  Every path calls `registro` exactly once
inside the `try`/`except`, and the `finally` cleanup runs unconditionally. -/
def runItem (url : String) (env : ItemEnv) (st : BatchState) : BatchState :=
  match env.download with
  | Except.error msg =>
      { st with
        log := registro (Except.error msg) url st.log
        fallidos := st.fallidos + 1 }
  | Except.ok info =>
      let files1 := createFile st.files info.filepath
      match env.convert with
      | Except.error msg =>
          { st with
            files := files1
            log := registro (Except.error msg) url st.log
            fallidos := st.fallidos + 1 }
      | Except.ok _ =>
          let input_file := info.filepath
          let output_file := sanitize info.title ++ ".wav"
          let files2 := createFile files1 output_file
          match env.transcribe with
          | Except.error msg =>
              { st with
                files := clean files2 (some input_file) (some output_file)
                log := registro (Except.error msg) url st.log
                fallidos := st.fallidos + 1 }
          | Except.ok _result =>
              match env.save with
              | Except.error msg =>
                  { st with
                    files := clean files2 (some input_file) (some output_file)
                    log := registro (Except.error msg) url st.log
                    fallidos := st.fallidos + 1 }
              | Except.ok _ =>
                  let files3 := createFile files2 (sanitize info.title ++ ".docx")
                  { st with
                    files := clean files3 (some input_file) (some output_file)
                    log := registro (Except.ok info) url st.log
                    exitosos := st.exitosos + 1 }

/-- The whole item loop of `main`: items processed strictly in order, the
environment fixing each url's stage outcomes. -/
def runBatch (envOf : String → ItemEnv) (urls : List String) (st : BatchState) : BatchState :=
  urls.foldl (fun s url => runItem url (envOf url) s) st

/-- Validation failures of `extract_url`, in the order the code checks them:
no `.csv` extension (`ValueError`), missing file (`FileNotFoundError`), no
`url` column (`ValueError`), no valid URLs (`ValueError`). -/
inductive ValidationError where
  | notCsv
  | fileNotFound
  | noUrlColumn
  | noValidUrls
deriving DecidableEq

/-- A parsed CSV table as pandas sees it: column names plus rows of cells;
`none` cells model NaN / missing values. -/
structure DataFrame where
  columns : List String
  rows : List (List (Option String))
deriving DecidableEq

/-- Column access `df[name].tolist()`: the cell of each row at the column's
index (missing cells are NaN). -/
def getColumn (df : DataFrame) (name : String) : List (Option String) :=
  match df.columns.indexOf? name with
  | none => []
  | some i => df.rows.map (fun r => (r.get? i).join)

/-- The URL-collecting loop of `extract_url`:
`if pd.notna(link) and str(link).strip(): urls.append(link.strip())`. -/
def collectUrls : List (Option String) → List String
  | [] => []
  | none :: rest => collectUrls rest
  | some s :: rest =>
      if pystrip s = "" then collectUrls rest else pystrip s :: collectUrls rest

/-- Python `s.endswith(t)`: is `t` a codepoint suffix of `s`. -/
def pyEndsWith (s t : String) : Bool :=
  t.data.isSuffixOf s.data

/-- Model of `extract_url(csv)`.  The filesystem argument `fs` returns the
parsed table of an existing CSV path and `none` for a missing file
(`os.path.exists` plus `pd.read_csv`). -/
def extract_url (path : String) (fs : String → Option DataFrame) :
    Except ValidationError (List String) :=
  if !pyEndsWith path ".csv" then Except.error ValidationError.notCsv
  else
    match fs path with
    | none => Except.error ValidationError.fileNotFound
    | some df =>
      if "url" ∉ df.columns then Except.error ValidationError.noUrlColumn
      else
        let urls := collectUrls (getColumn df "url")
        if urls = [] then Except.error ValidationError.noValidUrls
        else Except.ok urls

/-- Model of `main()`: resolve the work list (CLI argument → `extract_url`,
which may raise a `ValidationError` before any item is processed; no
argument → one prompted URL), then run every item.  Stage failures never
escape `runItem`, so the only error that crosses the batch boundary is the
resolution error. -/
def mainModel (arg : Option String) (fs : String → Option DataFrame)
    (envOf : String → ItemEnv) (promptUrl : String) (st : BatchState) :
    Except ValidationError BatchState :=
  match arg with
  | some path => (extract_url path fs).map (fun urls => runBatch envOf urls st)
  | none => Except.ok (runBatch envOf [promptUrl] st)

/-- Concrete metadata of a video whose raw download is `Video.webm`. -/
def rawInfo : Info :=
  { title := "Video"
    upload_date := some "20240101"
    duration := some 10
    view_count := some 1
    uploader := some "ch"
    filepath := "Video.webm" }

/-- Environment of an item whose download succeeds and whose `ffmpeg`
conversion fails (`subprocess.run(..., check=True)` raises); the later
stages are never reached. -/
def convertFailEnv : ItemEnv :=
  { download := Except.ok rawInfo
    convert := Except.error "ffmpeg exited with code 1"
    transcribe := Except.error "unreachable"
    save := Except.error "unreachable" }

/-- Environment of an item that fails at the transcription stage. -/
def transcribeFailEnv : ItemEnv :=
  { download := Except.ok rawInfo
    convert := Except.ok ()
    transcribe := Except.error "whisper failed"
    save := Except.error "unreachable" }

/-- A run starting with an empty disk, no audit log and zeroed counters. -/
def emptyState : BatchState :=
  { files := [], log := none, exitosos := 0, fallidos := 0 }

/-- A Whisper result that HAS a `'segments'` key holding an empty list. -/
def emptySegResult : TranscribeResult :=
  { text := "hola", segments := some [] }

/-- Metadata whose upload date is present but not in `YYYYMMDD` form. -/
def infoOtherDate : Info :=
  { title := "t"
    upload_date := some "2008-10"
    duration := none
    view_count := none
    uploader := none
    filepath := "t.webm" }

/-- Metadata with no upload date at all. -/
def infoNoDate : Info :=
  { title := "t"
    upload_date := none
    duration := none
    view_count := none
    uploader := none
    filepath := "t.webm" }

/-- A one-column demo table: two URL rows needing a trim, one NaN row and
one blank row. -/
def demoTable : DataFrame :=
  { columns := ["url"]
    rows := [[some " u1 "], [none], [some "  "], [some "u2"]] }

/-- A demo filesystem holding exactly `videos.csv`. -/
def demoFs : String → Option DataFrame :=
  fun p => if p = "videos.csv" then some demoTable else none

/-- A demo environment in which every download fails. -/
def demoEnv : String → ItemEnv :=
  fun _ =>
    { download := Except.error "network down"
      convert := Except.error "unreachable"
      transcribe := Except.error "unreachable"
      save := Except.error "unreachable" }

/-! Helper lemmas (shared between the claim theorems). -/

theorem sanitizeChar_idem (c : Char) : sanitizeChar (sanitizeChar c) = sanitizeChar c := by
  by_cases h : c ∈ reservedChars
  · simp only [sanitizeChar, if_pos h]
    decide
  · simp only [sanitizeChar, if_neg h, if_neg h]

theorem normalize_len8 (s : String) (h : s.length = 8) :
    normalize_upload_date s =
      String.mk (s.data.take 4) ++ "-" ++ String.mk ((s.data.drop 4).take 2) ++ "-" ++
        String.mk ((s.data.drop 6).take 2) := by
  have hne : s ≠ "N/A" := by
    intro he
    subst he
    exact absurd h (by decide)
  simp [normalize_upload_date, hne, h]

theorem normalize_other (s : String) (h : s.length ≠ 8) :
    normalize_upload_date s = s := by
  simp [normalize_upload_date, h]

theorem logDataCount_registro_write (log : Option (List LogLine)) (r : Row) :
    logDataCount (registro_write log r) = logDataCount log + 1 := by
  cases log with
  | none => rfl
  | some ls =>
      simp [registro_write, logDataCount, List.countP_append, List.countP_cons, LogLine.isData]

theorem runItem_registro (url : String) (env : ItemEnv) (st : BatchState) :
    ∃ r : Row, (runItem url env st).log = registro_write st.log r := by
  obtain ⟨d, c, t, sv⟩ := env
  cases d <;> cases c <;> cases t <;> cases sv <;> exact ⟨_, rfl⟩

theorem runItem_counters (url : String) (env : ItemEnv) (st : BatchState) :
    (runItem url env st).exitosos + (runItem url env st).fallidos =
      st.exitosos + st.fallidos + 1 := by
  obtain ⟨d, c, t, sv⟩ := env
  cases d <;> cases c <;> cases t <;> cases sv <;> simp [runItem] <;> omega

theorem runItem_log_count (url : String) (env : ItemEnv) (st : BatchState) :
    logDataCount (runItem url env st).log = logDataCount st.log + 1 := by
  obtain ⟨r, hr⟩ := runItem_registro url env st
  rw [hr, logDataCount_registro_write]

theorem recordAll_some (ls : List LogLine) (rs : List Row) :
    recordAll (some ls) rs = some (ls ++ rs.map LogLine.data) := by
  induction rs generalizing ls with
  | nil => simp [recordAll]
  | cons r rs ih =>
      show recordAll (some (ls ++ [LogLine.data r])) rs = _
      rw [ih]
      simp

theorem countP_isHeader_map_data (rs : List Row) :
    (rs.map LogLine.data).countP LogLine.isHeader = 0 := by
  induction rs with
  | nil => rfl
  | cons r rs ih => simp [List.countP_cons, LogLine.isHeader, ih]

/-- C1 (refuted by the code): the spec demands that every transient artifact of
an item — in particular the raw acquired file when normalization fails after a
successful acquisition — is removed by Cleanup before the next item.  In the
code, `input_file`/`output_file` are assigned from `convert_to_wav`'s return
value, so when `ffmpeg` raises, `main` still holds `None`/`None` and the
`finally` block runs `clean(None, None)`: the raw download `Video.webm` stays
on disk after the item ends.  For contrast, a transcription-stage failure does
clean both artifacts. -/
theorem cleanup_leak_on_convert_failure :
    (runItem "u" convertFailEnv emptyState).files = ["Video.webm"] ∧
    (runItem "u" convertFailEnv emptyState).fallidos = 1 ∧
    (runItem "u" transcribeFailEnv emptyState).files = [] :=
  ⟨rfl, rfl, rfl⟩

/-- C2: every run of the item loop body appends exactly one audit record —
its whole effect on the log is a single `registro` write, and the number of
data rows grows by exactly one — whatever the outcome of each stage. -/
theorem audit_one_record_per_item (url : String) (env : ItemEnv) (st : BatchState) :
    (∃ r : Row, (runItem url env st).log = registro_write st.log r) ∧
    logDataCount (runItem url env st).log = logDataCount st.log + 1 :=
  ⟨runItem_registro url env st, runItem_log_count url env st⟩

/-- C6: the title sanitizer maps every reserved character to an underscore,
leaves every other character unchanged, is idempotent, and sends
`Title: A/B?` to `Title_ A_B_`. -/
theorem sanitize_spec :
    (∀ c, c ∈ reservedChars → sanitizeChar c = '_') ∧
    (∀ c, c ∉ reservedChars → sanitizeChar c = c) ∧
    (∀ s, sanitize (sanitize s) = sanitize s) ∧
    sanitize "Title: A/B?" = "Title_ A_B_" := by
  refine ⟨fun c h => by simp [sanitizeChar, h], fun c h => by simp [sanitizeChar, h],
    fun s => ?_, by decide⟩
  show String.mk ((s.data.map sanitizeChar).map sanitizeChar) = String.mk (s.data.map sanitizeChar)
  rw [List.map_map]
  rw [show sanitizeChar ∘ sanitizeChar = sanitizeChar from funext sanitizeChar_idem]

/-- Witness for C6 at the concrete characters `/` and `a`. -/
theorem sanitize_spec_witness :
    ('/' ∈ reservedChars ∧ sanitizeChar '/' = '_') ∧
    ('a' ∉ reservedChars ∧ sanitizeChar 'a' = 'a') :=
  ⟨⟨by decide, sanitize_spec.1 '/' (by decide)⟩,
   ⟨by decide, sanitize_spec.2.1 'a' (by decide)⟩⟩

/-- C10: the success-path date normalization is decided solely by length —
every string of length 8 (digits or not; the `!= 'N/A'` guard is vacuous at
length 8) is sliced into `xxxx-xx-xx`, and every string of any other length
passes through verbatim. -/
theorem normalize_upload_date_by_length :
    (∀ s : String, s.length = 8 →
      normalize_upload_date s =
        String.mk (s.data.take 4) ++ "-" ++ String.mk ((s.data.drop 4).take 2) ++ "-" ++
          String.mk ((s.data.drop 6).take 2)) ∧
    (∀ s : String, s.length ≠ 8 → normalize_upload_date s = s) :=
  ⟨normalize_len8, normalize_other⟩

/-- Witness for C10 at a non-digit length-8 string and a length-4 string. -/
theorem normalize_upload_date_by_length_witness :
    normalize_upload_date "ABCDEFGH" = "ABCD-EF-GH" ∧
    normalize_upload_date "2008" = "2008" :=
  ⟨(normalize_upload_date_by_length.1 "ABCDEFGH" (by decide)).trans (by decide),
   normalize_upload_date_by_length.2 "2008" (by decide)⟩

/-- Counterexample to C7 as stated: an upload date in a format other than
8-digit `YYYYMMDD` (here `2008-10`) is recorded verbatim by the success path,
not as the `N/A` sentinel the claim demands. -/
theorem registro_date_counterexample :
    (successRow infoOtherDate "u").upload_date = "2008-10" ∧ "2008-10" ≠ "N/A" :=
  ⟨rfl, by decide⟩

/-- C7 (amended): on the success path the audit logger rewrites a length-8
upload date string as `YYYY-MM-DD`; a missing upload date is recorded as the
`N/A` sentinel; any other upload date string is recorded verbatim. -/
theorem registro_date_spec :
    (∀ url info, info.upload_date = none → (successRow info url).upload_date = "N/A") ∧
    (∀ url info s, info.upload_date = some s → s.length = 8 →
      (successRow info url).upload_date =
        String.mk (s.data.take 4) ++ "-" ++ String.mk ((s.data.drop 4).take 2) ++ "-" ++
          String.mk ((s.data.drop 6).take 2)) ∧
    (∀ url info s, info.upload_date = some s → s.length ≠ 8 →
      (successRow info url).upload_date = s) := by
  refine ⟨fun url info h => ?_, fun url info s h hl => ?_, fun url info s h hl => ?_⟩
  · simp only [successRow, h, Option.getD_none]
    exact normalize_other "N/A" (by decide)
  · simp only [successRow, h, Option.getD_some]
    exact normalize_len8 s hl
  · simp only [successRow, h, Option.getD_some]
    exact normalize_other s hl

/-- Witness for C7 at a missing date and at the concrete date `20081010`. -/
theorem registro_date_spec_witness :
    (successRow infoNoDate "u").upload_date = "N/A" ∧
    (successRow rawInfo "u").upload_date = "2024-01-01" :=
  ⟨registro_date_spec.1 "u" infoNoDate rfl,
   (registro_date_spec.2.1 "u" rawInfo "20240101" rfl (by decide)).trans (by decide)⟩

/-- Counterexample to C5 as stated: a `TranscriptionResult` whose `segments`
sequence is present but empty produces a document with no body paragraph at
all, not the single `fullText` paragraph the claim demands. -/
theorem word_empty_segments_counterexample :
    wordParagraphs emptySegResult = [] ∧
    ¬ wordParagraphs emptySegResult = [emptySegResult.text] :=
  ⟨rfl, by decide⟩

/-- C5 (amended): when the result carries a `segments` key the document body
has one paragraph per segment in sequence order, each `[start → end] ` (both
endpoints through the timestamp formatter) followed by the trimmed segment
text — an empty sequence giving zero paragraphs; only when the `segments`
key is absent does the body hold `fullText` verbatim as its single
paragraph. -/
theorem word_paragraphs_spec :
    (∀ result segs, result.segments = some segs →
      wordParagraphs result =
        segs.map (fun segment =>
          "[" ++ format_timestamp segment.start ++ " → " ++
            format_timestamp segment.«end» ++ "] " ++ pystrip segment.text)) ∧
    (∀ result, result.segments = none → wordParagraphs result = [result.text]) := by
  constructor
  · intro result segs h
    simp [wordParagraphs, h]
  · intro result h
    simp [wordParagraphs, h]

/-- Witness for C5 at a one-segment result and a result with no key. -/
theorem word_paragraphs_spec_witness :
    wordParagraphs { text := "x", segments := none } = ["x"] ∧
    wordParagraphs { text := "x", segments := some [{ start := 0, «end» := 125, text := " hi " }] } =
      ["[" ++ format_timestamp 0 ++ " → " ++ format_timestamp 125 ++ "] " ++ pystrip " hi "] :=
  ⟨word_paragraphs_spec.2 { text := "x", segments := none } rfl,
   word_paragraphs_spec.1 { text := "x", segments := some [{ start := 0, «end» := 125, text := " hi " }] }
     [{ start := 0, «end» := 125, text := " hi " }] rfl⟩

/-- C9: the header is written exactly once, by the write that creates the
file; every later write appends one data row after the existing lines,
rewriting, truncating and reordering nothing — within a run and across
runs. -/
theorem audit_header_once :
    (∀ ls rs, recordAll (some ls) rs = some (ls ++ rs.map LogLine.data)) ∧
    (∀ r rs, recordAll none (r :: rs) =
      some (LogLine.header :: (r :: rs).map LogLine.data)) ∧
    (∀ r rs, ((recordAll none (r :: rs)).getD []).countP LogLine.isHeader = 1) ∧
    (∀ ls rs, ((recordAll (some ls) rs).getD []).countP LogLine.isHeader =
      ls.countP LogLine.isHeader) := by
  have h2 : ∀ (r : Row) (rs : List Row),
      recordAll none (r :: rs) = some (LogLine.header :: (r :: rs).map LogLine.data) := by
    intro r rs
    show recordAll (some [LogLine.header, LogLine.data r]) rs = _
    rw [recordAll_some]
    simp
  refine ⟨fun ls rs => recordAll_some ls rs, h2, fun r rs => ?_, fun ls rs => ?_⟩
  · rw [h2 r rs]
    simp [List.countP_cons, LogLine.isHeader, countP_isHeader_map_data]
  · rw [recordAll_some]
    simp [List.countP_append, countP_isHeader_map_data]
    exact fun a _ => rfl

theorem runBatch_counts (envOf : String → ItemEnv) (urls : List String) (st : BatchState) :
    logDataCount (runBatch envOf urls st).log = logDataCount st.log + urls.length ∧
    (runBatch envOf urls st).exitosos + (runBatch envOf urls st).fallidos =
      st.exitosos + st.fallidos + urls.length := by
  induction urls generalizing st with
  | nil => simp [runBatch]
  | cons u urls ih =>
      have h1 := runItem_log_count u (envOf u) st
      have h2 := runItem_counters u (envOf u) st
      have hb : runBatch envOf (u :: urls) st = runBatch envOf urls (runItem u (envOf u) st) := rfl
      obtain ⟨ih1, ih2⟩ := ih (runItem u (envOf u) st)
      rw [hb]
      constructor
      · rw [ih1, h1]
        simp
        omega
      · rw [ih2]
        rw [h2]
        simp
        omega

/-- C3: the item loop is total and every item contributes exactly one audit
row and one counter tick no matter which of its stages fail — a stage failure
is absorbed inside `runItem`, so every subsequent item is still processed —
while `mainModel` propagates exactly the `ValidationError`s of input
resolution, which happen before any item runs. -/
theorem batch_isolation :
    (∀ envOf urls st,
      logDataCount (runBatch envOf urls st).log = logDataCount st.log + urls.length ∧
      (runBatch envOf urls st).exitosos + (runBatch envOf urls st).fallidos =
        st.exitosos + st.fallidos + urls.length) ∧
    (∀ path fs envOf promptUrl st e,
      mainModel (some path) fs envOf promptUrl st = Except.error e ↔
        extract_url path fs = Except.error e) ∧
    (∀ path fs envOf promptUrl st urls, extract_url path fs = Except.ok urls →
      mainModel (some path) fs envOf promptUrl st = Except.ok (runBatch envOf urls st)) := by
  refine ⟨fun envOf urls st => runBatch_counts envOf urls st, ?_, ?_⟩
  · intro path fs envOf promptUrl st e
    cases h : extract_url path fs <;> simp [mainModel, h, Except.map]
  · intro path fs envOf promptUrl st urls h
    simp [mainModel, h, Except.map]

/-- Witness for C3: on the demo table the run resolves `u1, u2` and
processes both. -/
theorem batch_isolation_witness :
    mainModel (some "videos.csv") demoFs demoEnv "p" emptyState =
      Except.ok (runBatch demoEnv ["u1", "u2"] emptyState) :=
  batch_isolation.2.2 "videos.csv" demoFs demoEnv "p" emptyState ["u1", "u2"] rfl

/-- C8: the input resolver fails with the matching `ValidationError` when the
path lacks the `.csv` extension, when the file is missing, when the table has
no `url` column, and when no valid entry remains; otherwise it returns
exactly the non-blank, whitespace-trimmed entries of the `url` column in
original row order (the collecting loop is `filterMap` of trim over the
column). -/
theorem extract_url_spec :
    (∀ cells, collectUrls cells =
      cells.filterMap (fun c =>
        c.bind (fun s => if pystrip s = "" then none else some (pystrip s)))) ∧
    (∀ path fs, pyEndsWith path ".csv" = false →
      extract_url path fs = Except.error ValidationError.notCsv) ∧
    (∀ path fs, pyEndsWith path ".csv" = true → fs path = none →
      extract_url path fs = Except.error ValidationError.fileNotFound) ∧
    (∀ path fs df, pyEndsWith path ".csv" = true → fs path = some df →
      "url" ∉ df.columns → extract_url path fs = Except.error ValidationError.noUrlColumn) ∧
    (∀ path fs df, pyEndsWith path ".csv" = true → fs path = some df →
      "url" ∈ df.columns → collectUrls (getColumn df "url") = [] →
      extract_url path fs = Except.error ValidationError.noValidUrls) ∧
    (∀ path fs df, pyEndsWith path ".csv" = true → fs path = some df →
      "url" ∈ df.columns → collectUrls (getColumn df "url") ≠ [] →
      extract_url path fs = Except.ok (collectUrls (getColumn df "url"))) := by
  refine ⟨?_, ?_, ?_, ?_, ?_, ?_⟩
  · intro cells
    induction cells with
    | nil => rfl
    | cons c rest ih =>
        cases c with
        | none => simp [collectUrls, ih, List.filterMap_cons]
        | some s =>
            by_cases h : pystrip s = "" <;>
              simp [collectUrls, h, ih, List.filterMap_cons]
  · intro path fs h
    simp [extract_url, h]
  · intro path fs h hf
    simp [extract_url, h, hf]
  · intro path fs df h hf hc
    simp [extract_url, h, hf, hc]
  · intro path fs df h hf hc hu
    simp [extract_url, h, hf, hc, hu]
  · intro path fs df h hf hc hu
    simp [extract_url, h, hf, hc, hu]

/-- Witness for C8: a non-CSV path is rejected and the demo table resolves
to its two trimmed URLs. -/
theorem extract_url_spec_witness :
    extract_url "nope.txt" demoFs = Except.error ValidationError.notCsv ∧
    extract_url "videos.csv" demoFs = Except.ok ["u1", "u2"] :=
  ⟨extract_url_spec.2.1 "nope.txt" demoFs rfl,
   (extract_url_spec.2.2.2.2.2 "videos.csv" demoFs demoTable rfl rfl (by decide)
     (by decide)).trans rfl⟩

theorem qfloor_nonneg_eq (s : ℚ) (hs : 0 ≤ s) : ⌊s⌋ = (⌊s⌋₊ : ℤ) := by
  rw [← Int.floor_toNat, Int.toNat_of_nonneg (Int.floor_nonneg.mpr hs)]

theorem qfloor_div_nat (s : ℚ) (hs : 0 ≤ s) (m : ℕ) :
    ⌊s / (m : ℚ)⌋ = ((⌊s⌋₊ / m : ℕ) : ℤ) := by
  have h1 : 0 ≤ s / (m : ℚ) := div_nonneg hs (Nat.cast_nonneg m)
  rw [qfloor_nonneg_eq _ h1, Nat.floor_div_nat]

theorem qrem_nonneg (s : ℚ) (hs : 0 ≤ s) (m : ℕ) :
    0 ≤ s - (m : ℚ) * ((⌊s / (m : ℚ)⌋ : ℤ) : ℚ) := by
  by_cases hm : (m : ℚ) = 0
  · simp [hm, hs]
  · have hm' : (0 : ℚ) < m := lt_of_le_of_ne (Nat.cast_nonneg m) (Ne.symm hm)
    have h := Int.floor_le (s / (m : ℚ))
    have h2 : (m : ℚ) * ((⌊s / (m : ℚ)⌋ : ℤ) : ℚ) ≤ (m : ℚ) * (s / m) :=
      mul_le_mul_of_nonneg_left h hm'.le
    have h3 : (m : ℚ) * (s / m) = s := by field_simp
    linarith

theorem qfloor_mod_nat (s : ℚ) (hs : 0 ≤ s) (m : ℕ) :
    ⌊s - (m : ℚ) * ((⌊s / (m : ℚ)⌋ : ℤ) : ℚ)⌋ = ((⌊s⌋₊ % m : ℕ) : ℤ) := by
  rw [qfloor_div_nat s hs m]
  have hcast : (m : ℚ) * (((⌊s⌋₊ / m : ℕ) : ℤ) : ℚ) = ((m * (⌊s⌋₊ / m) : ℕ) : ℚ) := by
    rw [Int.cast_natCast, ← Nat.cast_mul]
  rw [hcast, Int.floor_sub_nat, qfloor_nonneg_eq s hs]
  have h4 : ((m * (⌊s⌋₊ / m) : ℕ) : ℤ) + ((⌊s⌋₊ % m : ℕ) : ℤ) = ((⌊s⌋₊ : ℕ) : ℤ) := by
    exact_mod_cast Nat.div_add_mod ⌊s⌋₊ m
  linarith

theorem format_timestamp_eval (s : ℚ) (hs : 0 ≤ s) :
    format_timestamp s =
      if 3600 ≤ ⌊s⌋₊ then
        pad02d ((⌊s⌋₊ / 3600 : ℕ) : ℤ) ++ ":" ++ pad02d ((⌊s⌋₊ % 3600 / 60 : ℕ) : ℤ) ++ ":" ++
          pad02d ((⌊s⌋₊ % 60 : ℕ) : ℤ)
      else
        pad02d ((⌊s⌋₊ / 60 : ℕ) : ℤ) ++ ":" ++ pad02d ((⌊s⌋₊ % 60 : ℕ) : ℤ) := by
  have hdiv3600 : ⌊s / (3600 : ℚ)⌋ = ((⌊s⌋₊ / 3600 : ℕ) : ℤ) := by
    have h := qfloor_div_nat s hs 3600
    simpa using h
  have hmod60 : ⌊s - (60 : ℚ) * ((⌊s / (60 : ℚ)⌋ : ℤ) : ℚ)⌋ = ((⌊s⌋₊ % 60 : ℕ) : ℤ) := by
    have h := qfloor_mod_nat s hs 60
    simpa using h
  have hr0 : 0 ≤ s - (3600 : ℚ) * ((⌊s / (3600 : ℚ)⌋ : ℤ) : ℚ) := by
    have h := qrem_nonneg s hs 3600
    simpa using h
  have hrfloor : ⌊s - (3600 : ℚ) * ((⌊s / (3600 : ℚ)⌋ : ℤ) : ℚ)⌋ = ((⌊s⌋₊ % 3600 : ℕ) : ℤ) := by
    have h := qfloor_mod_nat s hs 3600
    simpa using h
  have hrnat : ⌊s - (3600 : ℚ) * ((⌊s / (3600 : ℚ)⌋ : ℤ) : ℚ)⌋₊ = ⌊s⌋₊ % 3600 := by
    rw [← Int.floor_toNat, hrfloor]
    omega
  have hmin : ⌊(s - (3600 : ℚ) * ((⌊s / (3600 : ℚ)⌋ : ℤ) : ℚ)) / (60 : ℚ)⌋ =
      ((⌊s⌋₊ % 3600 / 60 : ℕ) : ℤ) := by
    have h := qfloor_div_nat (s - (3600 : ℚ) * ((⌊s / (3600 : ℚ)⌋ : ℤ) : ℚ)) hr0 60
    rw [hrnat] at h
    simpa using h
  simp only [format_timestamp]
  rw [hmin, hmod60, hdiv3600]
  by_cases hc : 3600 ≤ ⌊s⌋₊
  · rw [if_pos (Int.natCast_pos.mpr (Nat.div_pos hc (by norm_num))), if_pos hc]
  · rw [if_neg, if_neg hc]
    · rw [Nat.mod_eq_of_lt (lt_of_not_le hc)]
    · rw [Nat.div_eq_of_lt (lt_of_not_le hc)]
      simp

/-- C4: for every non-negative number of seconds the formatter depends only on
the floored whole seconds (truncation, never rounding up); on a floored value
`n` it yields the zero-padded three-field `HH:MM:SS` exactly when
`3600 ≤ n` and the two-field `MM:SS` otherwise; and `0`, `125` and `3725`
map to `00:00`, `02:05` and `01:02:05`. -/
theorem format_timestamp_spec :
    (∀ s : ℚ, 0 ≤ s → format_timestamp s = format_timestamp ((⌊s⌋₊ : ℕ) : ℚ)) ∧
    (∀ n : ℕ, format_timestamp ((n : ℕ) : ℚ) =
      if 3600 ≤ n then
        pad02d ((n / 3600 : ℕ) : ℤ) ++ ":" ++ pad02d ((n % 3600 / 60 : ℕ) : ℤ) ++ ":" ++
          pad02d ((n % 60 : ℕ) : ℤ)
      else
        pad02d ((n / 60 : ℕ) : ℤ) ++ ":" ++ pad02d ((n % 60 : ℕ) : ℤ)) ∧
    format_timestamp 0 = "00:00" ∧ format_timestamp 125 = "02:05" ∧
    format_timestamp 3725 = "01:02:05" := by
  refine ⟨fun s hs => ?_, fun n => ?_, ?_, ?_, ?_⟩
  · rw [format_timestamp_eval s hs, format_timestamp_eval ((⌊s⌋₊ : ℕ) : ℚ) (Nat.cast_nonneg _)]
    simp [Nat.floor_natCast]
  · have h := format_timestamp_eval ((n : ℕ) : ℚ) (Nat.cast_nonneg n)
    simpa [Nat.floor_natCast] using h
  · norm_num [format_timestamp, pad02d]
    rfl
  · norm_num [format_timestamp, pad02d]
    rfl
  · norm_num [format_timestamp, pad02d]
    rfl

/-- Witness for C4 at the concrete fractional input 125.5 seconds. -/
theorem format_timestamp_spec_witness :
    format_timestamp (251 / 2 : ℚ) = format_timestamp ((⌊(251 / 2 : ℚ)⌋₊ : ℕ) : ℚ) :=
  format_timestamp_spec.1 (251 / 2) (div_nonneg (by decide) (by decide))
